import Mathlib

/-!
Shallow embedding of `nova/api/openstack/compute/plugins/v3/extended_volumes.py`
(the Extended Volumes API extension of the OpenStack-DNRM-Nova repository),
together with theorems settling the specification claims about it.

The module is a façade in front of two backend services (compute and volume).
We embed the façade's request handlers (`attach`, `detach`, the `show`/`detail`
enrichment hooks and `_extend_server`) as pure functions over an explicit
`Backend` record that supplies the responses of the external services, and we
instrument every handler to also return the list of backend calls it performed,
so that claims of the form "no backend call is made" are statable.

Machinery owned by the surrounding framework (the soft authorizer factory, the
`is_valid_body` check of `wsgi.Controller`, the UUID-format predicate of
`uuidutils`, and the conflict-message builder of `common`) is not under the
repository's source tree; those parts are either modelled from the spec (so
marked in their doc comments) or kept abstract as an explicit parameter.
-/

namespace ExtendedVolumes

/-- A block device mapping as the façade sees it: the only field it ever reads
is `volume_id` (`bdm['volume_id']` in the source).  `none` models an absent /
`None` value; `some ""` an empty string — both are falsy in Python. -/
structure BDM where
  volume_id : Option String
  deriving DecidableEq, Repr

/-- Python truthiness of a `volume_id` value, used by the list comprehension
`[bdm['volume_id'] for bdm in bdms if bdm['volume_id']]` in `_extend_server`. -/
def pythonTruthy : Option String → Bool
  | none => false
  | some s => !s.isEmpty

/-- One entry of the derived `volumes_attached` sequence: the single-field
object `{'id': volume_id}` built in `_extend_server`. -/
structure VolumeRef where
  id : String
  deriving DecidableEq, Repr

/-- A server representation being enriched.  `id` is the server id; `rest`
stands for every other key of the representation, which this extension never
touches; `volumes_attached` models the namespaced
`"os-extended-volumes:volumes_attached"` key (`none` = key absent). -/
structure Server where
  id : String
  rest : List (String × String)
  volumes_attached : Option (List VolumeRef) := none
  deriving DecidableEq, Repr

/-- The payload of the `attach` action body, `body['attach']` in the source:
each field is `none` when the corresponding key is absent. -/
structure AttachPayload where
  volume_id : Option String := none
  device : Option String := none
  deriving DecidableEq, Repr

/-- The payload of the `detach` action body, `body['detach']` in the source. -/
structure DetachPayload where
  volume_id : Option String := none
  deriving DecidableEq, Repr

/-- A request body.  Each field is `some payload` when the corresponding
top-level key is present and maps to a dict, `none` otherwise. -/
structure Body where
  attach : Option AttachPayload := none
  detach : Option DetachPayload := none
  deriving DecidableEq, Repr

/-- The request context, reduced to the three authorization capabilities the
module consults: the soft extension capability gating enrichment
(`v3:os-extended-volumes`), and the `attach` / `detach` capabilities. -/
structure Context where
  extAllowed : Bool
  attachAllowed : Bool
  detachAllowed : Bool
  deriving DecidableEq, Repr

/-- Modelled from the spec: `extensions.soft_extension_authorizer` produces a
soft capability check — `authorize(context) -> bool` — which returns whether
the caller holds the capability and never raises.  This is the factory used
for all three authorizers in the source. -/
def authorize (ctx : Context) : Bool :=
  ctx.extAllowed

/-- Modelled from the spec: soft (boolean, non-raising) check of the
`v3:os-extended-volumes:attach` capability; built by the same
`soft_extension_authorizer` factory as `authorize`. -/
def authorize_attach (ctx : Context) : Bool :=
  ctx.attachAllowed

/-- Modelled from the spec: soft (boolean, non-raising) check of the
`v3:os-extended-volumes:detach` capability; built by the same
`soft_extension_authorizer` factory as `authorize`. -/
def authorize_detach (ctx : Context) : Bool :=
  ctx.detachAllowed

/-- Outcome of `compute_api.get(context, server_id)` as the façade consumes
it: the instance is found, or `InstanceNotFound` is raised. -/
inductive ComputeGetResult where
  | found
  | instanceNotFound (msg : String)
  deriving DecidableEq, Repr

/-- Outcome of `volume_api.get(context, volume_id)` as the façade consumes
it: the volume is found, or `VolumeNotFound` is raised. -/
inductive VolumeGetResult where
  | found
  | volumeNotFound (msg : String)
  deriving DecidableEq, Repr

/-- Failure signals of `compute_api.attach_volume` that the façade catches,
plus success. -/
inductive AttachVolumeResult where
  | ok
  | instanceNotFound (msg : String)
  | volumeNotFound (msg : String)
  | invalidState (msg : String)
  | invalidVolume (msg : String)
  | invalidDevicePath (msg : String)
  deriving DecidableEq, Repr

/-- Failure signals of `compute_api.detach_volume` that the façade catches,
plus success.  `volumeUnattached` is the `exception.VolumeUnattached` signal. -/
inductive DetachVolumeResult where
  | ok
  | volumeUnattached
  | invalidVolume (msg : String)
  | invalidState (msg : String)
  deriving DecidableEq, Repr

/-- A record of one outbound backend call made by the façade. -/
inductive Call where
  | computeGet (server_id : String)
  | volumeGet (volume_id : String)
  | getInstanceBdms (server_id : String)
  | attachVolume (server_id volume_id : String) (device : Option String)
  | detachVolume (server_id volume_id : String)
  deriving DecidableEq, Repr

/-- The two external services as black boxes.  Responses are keyed by the
identifiers the façade passes; `detachVolume` is additionally keyed by the
number of detach calls already made in this request, so that a stateful
backend (e.g. "already unattached on the first call, success on the second")
is representable. -/
structure Backend where
  computeGet : String → ComputeGetResult
  volumeGet : String → VolumeGetResult
  getInstanceBdms : String → List BDM
  attachVolume : String → String → Option String → AttachVolumeResult
  detachVolume : Nat → DetachVolumeResult

/-- Façade-level outcome of a request.  `accepted` is the 202 response with no
body installed by `@wsgi.response(202)`; `keyError` models an uncaught Python
`KeyError` escaping the handler (no `webob` error is raised for it). -/
inductive FacadeResult where
  | accepted
  | forbidden
  | badRequest (msg : String)
  | notFound (msg : String)
  | conflict (msg : String)
  | keyError (key : String)
  deriving DecidableEq, Repr

/-- The message of `_validate_volume_id`:
`"Bad volumeId format: volumeId is not in proper format (%s)" % volume_id`. -/
def badFormatMsg (volume_id : String) : String :=
  "Bad volumeId format: volumeId is not in proper format (" ++ volume_id ++ ")"

/-- The message used by `detach` both when the BDM list is empty and when the
scan falls through:
`"Volume %(volume_id)s is not attached to the instance %(server_id)s"`. -/
def notAttachedMsg (server_id volume_id : String) : String :=
  "Volume " ++ volume_id ++ " is not attached to the instance " ++ server_id

/-- Modelled from the spec:
`common.raise_http_conflict_for_instance_invalid_state` (not under the source
tree) raises `Conflict` with an operation-specific message naming the
attempted operation (`'attach_volume'` / `'detach_volume'`). -/
def instanceInvalidStateMsg (method : String) (msg : String) : String :=
  "Cannot " ++ method ++ ": " ++ msg

/-- Modelled from the spec: `wsgi.Controller.is_valid_body(body, 'attach')`
(owned by the framework, not under the source tree) requires the request body
to contain a well-formed `attach` object — per the data model, an attach
request is `{volume_id: string, device: optional string}`, so the `attach`
entity must be present and carry the required `volume_id` field. -/
def is_valid_body (body : Body) : Bool :=
  match body.attach with
  | some payload => payload.volume_id.isSome
  | none => false

/-- `ExtendedVolumesController._extend_server`: fetch the instance's BDMs,
keep the truthy `volume_id` values in mapping order and store them under the
namespaced `volumes_attached` key as `{'id': volume_id}` objects.  Also
returns the backend calls performed. -/
def _extend_server (backend : Backend) (server : Server) : Server × List Call :=
  let bdms := backend.getInstanceBdms server.id
  let volume_ids := (bdms.filter (fun bdm => pythonTruthy bdm.volume_id)).filterMap
    (fun bdm => bdm.volume_id)
  ({ server with volumes_attached := some (volume_ids.map VolumeRef.mk) },
   [Call.getInstanceBdms server.id])

/-- `ExtendedVolumesController.show`: when the caller holds the soft extension
capability, enrich the single server representation via `_extend_server`;
otherwise leave it untouched and make no backend call. -/
def show' (ctx : Context) (backend : Backend) (server : Server) :
    Server × List Call :=
  if authorize ctx then _extend_server backend server
  else (server, [])

/-- `ExtendedVolumesController.detail`: when the caller holds the soft
extension capability, apply the identical per-server enrichment to every
element of the server list; otherwise leave all of them untouched. -/
def detail (ctx : Context) (backend : Backend) (servers : List Server) :
    List Server × List Call :=
  if authorize ctx then
    let results := servers.map (_extend_server backend)
    (results.map Prod.fst, (results.map Prod.snd).flatten)
  else (servers, [])

/-- `ExtendedVolumesController.attach`.  `uuidLike` is
`uuidutils.is_uuid_like` (owned by a library outside the source tree), kept
abstract as a parameter.  Mirrors the source line by line: the soft
authorization result is computed and discarded, the body is validated, the
volume id format is checked, then `compute_api.get` and
`compute_api.attach_volume` run inside one try whose handlers map backend
failure signals to façade errors. -/
def attach (uuidLike : String → Bool) (ctx : Context) (backend : Backend)
    (server_id : String) (body : Body) : FacadeResult × List Call :=
  let _authorized := authorize_attach ctx
  if !is_valid_body body then
    (FacadeResult.badRequest "The request body invalid", [])
  else
    match body.attach with
    | none => (FacadeResult.keyError "attach", [])
    | some payload =>
      match payload.volume_id with
      | none => (FacadeResult.keyError "volume_id", [])
      | some volume_id =>
        let device := payload.device
        if !uuidLike volume_id then
          (FacadeResult.badRequest (badFormatMsg volume_id), [])
        else
          let calls0 := [Call.computeGet server_id]
          match backend.computeGet server_id with
          | ComputeGetResult.instanceNotFound msg =>
            (FacadeResult.notFound msg, calls0)
          | ComputeGetResult.found =>
            let calls1 := calls0 ++ [Call.attachVolume server_id volume_id device]
            match backend.attachVolume server_id volume_id device with
            | AttachVolumeResult.ok => (FacadeResult.accepted, calls1)
            | AttachVolumeResult.instanceNotFound msg =>
              (FacadeResult.notFound msg, calls1)
            | AttachVolumeResult.volumeNotFound msg =>
              (FacadeResult.notFound msg, calls1)
            | AttachVolumeResult.invalidState msg =>
              (FacadeResult.conflict (instanceInvalidStateMsg "attach_volume" msg),
               calls1)
            | AttachVolumeResult.invalidVolume msg =>
              (FacadeResult.badRequest msg, calls1)
            | AttachVolumeResult.invalidDevicePath msg =>
              (FacadeResult.badRequest msg, calls1)

/-- The `for bdm in bdms: ... else: raise HTTPNotFound` scan of
`ExtendedVolumesController.detach`.  `k` counts the detach calls already
issued (indexing the stateful backend).  Returns the façade outcome of the
scan together with the detach calls it performs; the `for/else` branch
(loop exhausted without `break`) yields the not-attached `NotFound`. -/
def detachLoop (backend : Backend) (server_id volume_id : String) (k : Nat) :
    List BDM → FacadeResult × List Call
  | [] => (FacadeResult.notFound (notAttachedMsg server_id volume_id), [])
  | bdm :: rest =>
    if bdm.volume_id ≠ some volume_id then
      detachLoop backend server_id volume_id k rest
    else
      let call := Call.detachVolume server_id volume_id
      match backend.detachVolume k with
      | DetachVolumeResult.ok => (FacadeResult.accepted, [call])
      | DetachVolumeResult.volumeUnattached =>
        let result := detachLoop backend server_id volume_id (k + 1) rest
        (result.fst, call :: result.snd)
      | DetachVolumeResult.invalidVolume msg =>
        (FacadeResult.badRequest msg, [call])
      | DetachVolumeResult.invalidState msg =>
        (FacadeResult.conflict (instanceInvalidStateMsg "detach_volume" msg),
         [call])

/-- `ExtendedVolumesController.detach`.  Mirrors the source: the soft
authorization result is computed and discarded, `body['detach']['volume_id']`
is read with no validity check (a missing key is an uncaught `KeyError`),
the instance and the volume are resolved (each mapping its not-found signal
to `NotFound`), the BDMs are fetched with an empty-collection `NotFound`
guard, and the scan loop runs. -/
def detach (ctx : Context) (backend : Backend) (server_id : String)
    (body : Body) : FacadeResult × List Call :=
  let _authorized := authorize_detach ctx
  match body.detach with
  | none => (FacadeResult.keyError "detach", [])
  | some payload =>
    match payload.volume_id with
    | none => (FacadeResult.keyError "volume_id", [])
    | some volume_id =>
      let calls0 := [Call.computeGet server_id]
      match backend.computeGet server_id with
      | ComputeGetResult.instanceNotFound msg =>
        (FacadeResult.notFound msg, calls0)
      | ComputeGetResult.found =>
        let calls1 := calls0 ++ [Call.volumeGet volume_id]
        match backend.volumeGet volume_id with
        | VolumeGetResult.volumeNotFound msg =>
          (FacadeResult.notFound msg, calls1)
        | VolumeGetResult.found =>
          let calls2 := calls1 ++ [Call.getInstanceBdms server_id]
          let bdms := backend.getInstanceBdms server_id
          if bdms.isEmpty then
            (FacadeResult.notFound (notAttachedMsg server_id volume_id), calls2)
          else
            let result := detachLoop backend server_id volume_id 0 bdms
            (result.fst, calls2 ++ result.snd)

/-- Number of BDMs in the list whose `volume_id` equals the requested id:
the mappings the detach scan will actually attempt. -/
def countMatches (bdms : List BDM) (volume_id : String) : Nat :=
  (bdms.filter (fun bdm => bdm.volume_id == some volume_id)).length

/-- Whether a recorded backend call is a `detach_volume` invocation. -/
def isDetachCall : Call → Bool
  | Call.detachVolume _ _ => true
  | _ => false

/-- Spec §7 mapping table for attach, written from the spec's words: backend
failure signal to façade outcome (success → 202-no-body, not-found signals →
NotFound, invalid state → Conflict with the attach-specific message, invalid
volume / device path → BadRequest). -/
def specAttachOutcome : AttachVolumeResult → FacadeResult
  | AttachVolumeResult.ok => FacadeResult.accepted
  | AttachVolumeResult.instanceNotFound msg => FacadeResult.notFound msg
  | AttachVolumeResult.volumeNotFound msg => FacadeResult.notFound msg
  | AttachVolumeResult.invalidState msg =>
    FacadeResult.conflict (instanceInvalidStateMsg "attach_volume" msg)
  | AttachVolumeResult.invalidVolume msg => FacadeResult.badRequest msg
  | AttachVolumeResult.invalidDevicePath msg => FacadeResult.badRequest msg

/-! Concrete fixtures used by witnesses and counterexamples. -/

/-- A canonical 36-character volume id. -/
def vid1 : String := "11111111-2222-3333-4444-555555555555"

/-- A second, distinct 36-character volume id. -/
def vid2 : String := "99999999-8888-7777-6666-555555555555"

/-- A concrete stand-in for `uuidutils.is_uuid_like`, accepting exactly the
36-character canonical form; enough to separate a canonical uuid from
`"not-a-uuid"`. -/
def demoUuidLike (s : String) : Bool := s.length == 36

/-- A context granted every capability. -/
def grantedCtx : Context := { extAllowed := true, attachAllowed := true, detachAllowed := true }

/-- A context denied every capability. -/
def deniedCtx : Context := { extAllowed := false, attachAllowed := false, detachAllowed := false }

/-- A server representation without the extension key. -/
def demoServer : Server := { id := "srv-1", rest := [("name", "demo")] }

/-- A backend on which every lookup succeeds, the instance has one BDM for
`vid1`, and both mutating operations succeed. -/
def okBackend : Backend where
  computeGet _ := ComputeGetResult.found
  volumeGet _ := VolumeGetResult.found
  getInstanceBdms _ := [{ volume_id := some vid1 }]
  attachVolume _ _ _ := AttachVolumeResult.ok
  detachVolume _ := DetachVolumeResult.ok

/-- A backend whose instance carries two BDMs for `vid1`; the first detach
call reports `VolumeUnattached`, the second succeeds. -/
def seqDetachBackend : Backend where
  computeGet _ := ComputeGetResult.found
  volumeGet _ := VolumeGetResult.found
  getInstanceBdms _ := [{ volume_id := some vid1 }, { volume_id := some vid1 }]
  attachVolume _ _ _ := AttachVolumeResult.ok
  detachVolume k := if k == 0 then DetachVolumeResult.volumeUnattached else DetachVolumeResult.ok

/-- A backend whose instance has one BDM for `vid1` only (so a request for
`vid2` matches nothing). -/
def noMatchBackend : Backend := okBackend

/-- A backend whose instance has no BDMs at all. -/
def emptyBdmsBackend : Backend where
  computeGet _ := ComputeGetResult.found
  volumeGet _ := VolumeGetResult.found
  getInstanceBdms _ := []
  attachVolume _ _ _ := AttachVolumeResult.ok
  detachVolume _ := DetachVolumeResult.ok

/-- A backend whose instance has two BDMs with distinct non-empty volume
ids. -/
def twoVolsBackend : Backend where
  computeGet _ := ComputeGetResult.found
  volumeGet _ := VolumeGetResult.found
  getInstanceBdms _ := [{ volume_id := some vid1 }, { volume_id := some vid2 }]
  attachVolume _ _ _ := AttachVolumeResult.ok
  detachVolume _ := DetachVolumeResult.ok

/-- A backend whose instance has only BDMs with absent or empty volume ids. -/
def falsyBdmsBackend : Backend where
  computeGet _ := ComputeGetResult.found
  volumeGet _ := VolumeGetResult.found
  getInstanceBdms _ := [{ volume_id := none }, { volume_id := some "" }]
  attachVolume _ _ _ := AttachVolumeResult.ok
  detachVolume _ := DetachVolumeResult.ok

/-! Theorems settling the claims. -/

/-- C1: the spec requires attach/detach to fail with Forbidden when the
caller is denied the mutating capability, but the source builds both
authorizers with the soft (boolean) factory and discards the result of
`authorize_attach(context)` / `authorize_detach(context)`: with every
capability denied, both operations still run to the accepted 202 outcome
instead of raising Forbidden. -/
theorem c1_denied_caller_not_forbidden :
    (attach demoUuidLike deniedCtx okBackend "srv-1"
      { attach := some { volume_id := some vid1 } }).fst
      = FacadeResult.accepted ∧
    (detach deniedCtx okBackend "srv-1"
      { detach := some { volume_id := some vid1 } }).fst
      = FacadeResult.accepted := by
  constructor <;> rfl

/-- C2: when the instance's BDMs are two mappings for the requested volume
id and the backend reports `VolumeUnattached` on the first detach attempt
and succeeds on the second, the detach operation succeeds (202, no body):
the scan continues past the already-unattached signal. -/
theorem c2_unattached_then_ok_succeeds (ctx : Context) (backend : Backend)
    (server_id volume_id : String)
    (h1 : backend.computeGet server_id = ComputeGetResult.found)
    (h2 : backend.volumeGet volume_id = VolumeGetResult.found)
    (h3 : backend.getInstanceBdms server_id
      = [{ volume_id := some volume_id }, { volume_id := some volume_id }])
    (h4 : backend.detachVolume 0 = DetachVolumeResult.volumeUnattached)
    (h5 : backend.detachVolume 1 = DetachVolumeResult.ok) :
    (detach ctx backend server_id
      { detach := some { volume_id := some volume_id } }).fst
      = FacadeResult.accepted := by
  simp [detach, detachLoop, h1, h2, h3, h4, h5]

/-- C2 witness: the property instantiated on the concrete two-mapping
backend whose first detach call reports unattached. -/
theorem c2_witness :
    (detach grantedCtx seqDetachBackend "srv-1"
      { detach := some { volume_id := some vid1 } }).fst
      = FacadeResult.accepted :=
  c2_unattached_then_ok_succeeds grantedCtx seqDetachBackend "srv-1" vid1
    rfl rfl rfl rfl rfl

/-- Auxiliary: if every detach call the scan can issue (indices `k ≤ j <
k + number of matching BDMs`) reports `VolumeUnattached`, the scan falls
through to the not-attached `NotFound`. -/
theorem detachLoop_all_unattached (backend : Backend)
    (server_id volume_id : String) (bdms : List BDM) (k : Nat)
    (h : ∀ j, k ≤ j → j < k + countMatches bdms volume_id →
      backend.detachVolume j = DetachVolumeResult.volumeUnattached) :
    (detachLoop backend server_id volume_id k bdms).fst
      = FacadeResult.notFound (notAttachedMsg server_id volume_id) := by
  induction bdms generalizing k with
  | nil => rfl
  | cons bdm rest ih =>
    by_cases hm : bdm.volume_id = some volume_id
    · have hcount : countMatches (bdm :: rest) volume_id
          = countMatches rest volume_id + 1 := by
        simp [countMatches, hm]
      have hk : backend.detachVolume k = DetachVolumeResult.volumeUnattached := by
        refine h k le_rfl ?bound
        rw [hcount]; omega
      simp only [detachLoop, hm, not_true_eq_false, if_false, ne_eq,
        not_false_eq_true, if_true, hk]
      exact ih (k + 1) (fun j hj1 hj2 => h j (by omega) (by rw [hcount]; omega))
    · have hcount : countMatches (bdm :: rest) volume_id
          = countMatches rest volume_id := by
        simp [countMatches, hm]
      simp only [detachLoop, hm, ne_eq, not_false_eq_true, if_true]
      exact ih k (fun j hj1 hj2 => h j hj1 (by rw [hcount]; omega))

/-- C3: when the scan completes without a successful backend detach —
either no BDM's volume id equals the requested one (zero matches), or every
match's detach call reported `VolumeUnattached` — the operation fails with
`NotFound` carrying the volume-is-not-attached message. -/
theorem c3_scan_exhausted_not_found (ctx : Context) (backend : Backend)
    (server_id volume_id : String)
    (h1 : backend.computeGet server_id = ComputeGetResult.found)
    (h2 : backend.volumeGet volume_id = VolumeGetResult.found)
    (h3 : ∀ j, j < countMatches (backend.getInstanceBdms server_id) volume_id →
      backend.detachVolume j = DetachVolumeResult.volumeUnattached) :
    (detach ctx backend server_id
      { detach := some { volume_id := some volume_id } }).fst
      = FacadeResult.notFound (notAttachedMsg server_id volume_id) := by
  by_cases he : (backend.getInstanceBdms server_id).isEmpty
  · simp [detach, h1, h2, he]
  · simp only [detach, h1, h2, he, if_false, Bool.false_eq_true]
    exact detachLoop_all_unattached backend server_id volume_id _ 0
      (fun j hj1 hj2 => h3 j (by omega))

/-- C3 witness: a request for `vid2` against an instance whose only BDM
holds `vid1` (zero matches) yields the not-attached `NotFound`. -/
theorem c3_witness :
    (detach grantedCtx noMatchBackend "srv-1"
      { detach := some { volume_id := some vid2 } }).fst
      = FacadeResult.notFound (notAttachedMsg "srv-1" vid2) :=
  c3_scan_exhausted_not_found grantedCtx noMatchBackend "srv-1" vid2 rfl rfl
    (fun j hj => by
      have h0 : countMatches (noMatchBackend.getInstanceBdms "srv-1") vid2 = 0 := by
        decide
      rw [h0] at hj
      exact absurd hj (Nat.not_lt_zero j))

/-- C4: when the instance's BDM collection is empty the detach operation
fails with the not-attached `NotFound` and the backend detach operation is
never invoked (the recorded call list contains no `detachVolume` entry);
since a successful detach leaves the collection empty, an immediately
repeated detach gets the same outcome. -/
theorem c4_empty_bdms_not_found_no_detach_call (ctx : Context)
    (backend : Backend) (server_id volume_id : String)
    (h1 : backend.computeGet server_id = ComputeGetResult.found)
    (h2 : backend.volumeGet volume_id = VolumeGetResult.found)
    (h3 : backend.getInstanceBdms server_id = []) :
    (detach ctx backend server_id
      { detach := some { volume_id := some volume_id } }).fst
      = FacadeResult.notFound (notAttachedMsg server_id volume_id) ∧
    ((detach ctx backend server_id
      { detach := some { volume_id := some volume_id } }).snd.filter
        isDetachCall) = [] := by
  constructor <;> simp [detach, h1, h2, h3, isDetachCall]

/-- C4 witness: the property instantiated on the concrete backend whose
instance has no BDMs. -/
theorem c4_witness :
    (detach grantedCtx emptyBdmsBackend "srv-1"
      { detach := some { volume_id := some vid1 } }).fst
      = FacadeResult.notFound (notAttachedMsg "srv-1" vid1) ∧
    ((detach grantedCtx emptyBdmsBackend "srv-1"
      { detach := some { volume_id := some vid1 } }).snd.filter
        isDetachCall) = [] :=
  c4_empty_bdms_not_found_no_detach_call grantedCtx emptyBdmsBackend
    "srv-1" vid1 rfl rfl rfl

/-- C5: an attach request whose volume id fails the UUID-format predicate is
rejected with `BadRequest` whose message contains the offending value, and
no backend call of any kind is made. -/
theorem c5_bad_uuid_bad_request (uuidLike : String → Bool) (ctx : Context)
    (backend : Backend) (server_id volume_id : String)
    (device : Option String)
    (h : uuidLike volume_id = false) :
    attach uuidLike ctx backend server_id
      { attach := some { volume_id := some volume_id, device := device } }
      = (FacadeResult.badRequest
          ("Bad volumeId format: volumeId is not in proper format ("
            ++ volume_id ++ ")"), []) := by
  simp [attach, is_valid_body, badFormatMsg, h]

/-- C5 witness: `"not-a-uuid"` is rejected by the concrete format predicate
and the request ends in `BadRequest` echoing it, with zero backend calls. -/
theorem c5_witness :
    attach demoUuidLike grantedCtx okBackend "srv-1"
      { attach := some { volume_id := some "not-a-uuid", device := none } }
      = (FacadeResult.badRequest
          ("Bad volumeId format: volumeId is not in proper format ("
            ++ "not-a-uuid" ++ ")"), []) :=
  c5_bad_uuid_bad_request demoUuidLike grantedCtx okBackend "srv-1"
    "not-a-uuid" none rfl

/-- Auxiliary: on a BDM list whose volume ids are all present and non-empty,
the truthiness filter keeps everything and the extraction returns exactly the
underlying id list, in order. -/
theorem extract_all_nonempty (vids : List String) (h : ∀ s ∈ vids, s ≠ "") :
    (((vids.map (fun s => BDM.mk (some s))).filter
        (fun bdm => pythonTruthy bdm.volume_id)).filterMap
      (fun bdm => bdm.volume_id)) = vids := by
  induction vids with
  | nil => rfl
  | cons s rest ih =>
    have hs : s ≠ "" := h s (List.mem_cons_self s rest)
    have hne : pythonTruthy (some s) = true := by
      have hE : s.isEmpty = false :=
        Bool.eq_false_iff.mpr (fun hE => hs ((String.isEmpty_iff s).mp hE))
      simp [pythonTruthy, hE]
    simp only [List.map_cons, List.filter_cons, hne, if_true, List.filterMap_cons]
    exact congrArg (List.cons s) (ih (fun t ht => h t (List.mem_cons_of_mem s ht)))

/-- C6: for an authorized caller and an instance whose BDMs all carry
non-empty volume ids, the `show` enrichment sets `volumes_attached` to
exactly one `{id: volume_id}` entry per mapping, in mapping order; and the
`detail` variant applies the identical per-server enrichment to every
element of the list. -/
theorem c6_enrichment_all_nonempty (ctx : Context) (backend : Backend)
    (server : Server) (vids : List String)
    (hauth : ctx.extAllowed = true)
    (hb : backend.getInstanceBdms server.id
      = vids.map (fun s => BDM.mk (some s)))
    (hne : ∀ s ∈ vids, s ≠ "") :
    ((show' ctx backend server).fst).volumes_attached
        = some (vids.map VolumeRef.mk) ∧
    ∀ servers : List Server,
      (detail ctx backend servers).fst
        = servers.map (fun sv => (show' ctx backend sv).fst) := by
  constructor
  · simp [show', authorize, hauth, _extend_server, hb,
      extract_all_nonempty vids hne]
  · intro servers
    simp [detail, show', authorize, hauth, List.map_map]

/-- C6 witness: on the concrete two-BDM backend, `show` yields the two-entry
`volumes_attached` in mapping order and `detail` is the per-element map of
the same enrichment. -/
theorem c6_witness :
    ((show' grantedCtx twoVolsBackend demoServer).fst).volumes_attached
        = some ([vid1, vid2].map VolumeRef.mk) ∧
    ∀ servers : List Server,
      (detail grantedCtx twoVolsBackend servers).fst
        = servers.map (fun sv => (show' grantedCtx twoVolsBackend sv).fst) :=
  c6_enrichment_all_nonempty grantedCtx twoVolsBackend demoServer [vid1, vid2]
    rfl rfl (by decide)

/-- C7: when the caller lacks the soft extension capability, both `show` and
`detail` leave every server representation exactly as given (no key
added, nothing changed), make no backend call, and raise no error. -/
theorem c7_unauthorized_noop (ctx : Context) (backend : Backend)
    (server : Server) (servers : List Server)
    (h : ctx.extAllowed = false) :
    show' ctx backend server = (server, []) ∧
    detail ctx backend servers = (servers, []) := by
  constructor <;> simp [show', detail, authorize, h]

/-- C7 witness: the no-op instantiated on a denied context, the concrete
backend, one server and a one-element server list. -/
theorem c7_witness :
    show' deniedCtx twoVolsBackend demoServer = (demoServer, []) ∧
    detail deniedCtx twoVolsBackend [demoServer] = ([demoServer], []) :=
  c7_unauthorized_noop deniedCtx twoVolsBackend demoServer [demoServer] rfl

/-- C8 counterexample: a detach request whose `detach` object lacks the
required `volume_id` field does not fail with `BadRequest`: the unguarded
`body['detach']['volume_id']` lookup raises an uncaught `KeyError`
(`FacadeResult.keyError`, a distinct constructor from
`FacadeResult.badRequest`). -/
theorem c8_counterexample :
    (detach grantedCtx okBackend "srv-1"
      { detach := some { volume_id := none } }).fst
      = FacadeResult.keyError "volume_id" := rfl

/-- C8 amended: an attach request whose body fails the body validity check
is rejected with `BadRequest`, but detach performs no body validation: a
detach request whose `detach` object lacks `volume_id` ends in an uncaught
`KeyError` rather than `BadRequest`. -/
theorem c8_attach_only_bad_request (uuidLike : String → Bool) (ctx : Context)
    (backend : Backend) (server_id : String) (body : Body)
    (hbad : is_valid_body body = false) :
    (attach uuidLike ctx backend server_id body).fst
      = FacadeResult.badRequest "The request body invalid" ∧
    ∀ b : Body, ∀ p : DetachPayload, b.detach = some p → p.volume_id = none →
      (detach ctx backend server_id b).fst
        = FacadeResult.keyError "volume_id" := by
  constructor
  · simp [attach, hbad]
  · intro b p hb hp
    simp [detach, hb, hp]

/-- C8 witness: a body with no `attach` object is rejected with
`BadRequest` by attach, and a detach body lacking `volume_id` ends in the
uncaught `KeyError`. -/
theorem c8_witness :
    (attach demoUuidLike grantedCtx okBackend "srv-1"
      { attach := none, detach := none }).fst
      = FacadeResult.badRequest "The request body invalid" ∧
    (detach grantedCtx okBackend "srv-1"
      { attach := none, detach := some { volume_id := none } }).fst
      = FacadeResult.keyError "volume_id" := by
  have h := c8_attach_only_bad_request demoUuidLike grantedCtx okBackend
    "srv-1" { attach := none, detach := none } rfl
  exact ⟨h.1, h.2 { attach := none, detach := some { volume_id := none } }
    { volume_id := none } rfl rfl⟩

/-- C9: once an attach request reaches the backend (valid body, UUID-like
volume id, instance resolved), the façade outcome is exactly the spec's
mapping table applied to the backend signal — success is the 202-no-body
acceptance, not-found signals map to `NotFound`, invalid state maps to
`Conflict` with the attach-specific message, invalid volume and invalid
device path map to `BadRequest` — and both backend calls are recorded. -/
theorem c9_attach_backend_mapping (uuidLike : String → Bool) (ctx : Context)
    (backend : Backend) (server_id volume_id : String)
    (device : Option String)
    (hu : uuidLike volume_id = true)
    (h1 : backend.computeGet server_id = ComputeGetResult.found) :
    attach uuidLike ctx backend server_id
      { attach := some { volume_id := some volume_id, device := device } }
      = (specAttachOutcome (backend.attachVolume server_id volume_id device),
         [Call.computeGet server_id,
          Call.attachVolume server_id volume_id device]) := by
  cases hA : backend.attachVolume server_id volume_id device <;>
    simp [attach, is_valid_body, specAttachOutcome, hu, h1, hA]

/-- C9 witness: on the all-successful backend the attach request is
accepted with no body and both backend calls are recorded. -/
theorem c9_witness :
    attach demoUuidLike grantedCtx okBackend "srv-1"
      { attach := some { volume_id := some vid1, device := none } }
      = (specAttachOutcome (okBackend.attachVolume "srv-1" vid1 none),
         [Call.computeGet "srv-1", Call.attachVolume "srv-1" vid1 none]) :=
  c9_attach_backend_mapping demoUuidLike grantedCtx okBackend "srv-1" vid1
    none rfl rfl

/-- Auxiliary: on a BDM list whose volume ids are all falsy (absent or the
empty string), the truthiness filter drops everything. -/
theorem extract_all_falsy (bdms : List BDM)
    (h : ∀ bdm ∈ bdms, pythonTruthy bdm.volume_id = false) :
    ((bdms.filter (fun bdm => pythonTruthy bdm.volume_id)).filterMap
      (fun bdm => bdm.volume_id)) = [] := by
  have hf : bdms.filter (fun bdm => pythonTruthy bdm.volume_id) = [] :=
    List.filter_eq_nil_iff.mpr (by simpa using h)
  rw [hf]
  rfl

/-- C10: for an authorized caller the enrichment always sets the
`volumes_attached` key, even when the result is the empty sequence: an
instance with no BDMs, or whose BDMs all have an absent or empty
`volume_id` (such entries are filtered out), gets `some []` rather than the
key being left absent. -/
theorem c10_key_always_set (ctx : Context) (backend : Backend)
    (server : Server)
    (hauth : ctx.extAllowed = true)
    (h : ∀ bdm ∈ backend.getInstanceBdms server.id,
      bdm.volume_id = none ∨ bdm.volume_id = some "") :
    ((show' ctx backend server).fst).volumes_attached = some [] := by
  have hf : ∀ bdm ∈ backend.getInstanceBdms server.id,
      pythonTruthy bdm.volume_id = false := by
    intro bdm hb
    rcases h bdm hb with h' | h' <;>
      simp [pythonTruthy, h', String.isEmpty_iff]
  simp [show', authorize, hauth, _extend_server,
    extract_all_falsy (backend.getInstanceBdms server.id) hf]

/-- C10 witness: a server whose instance's BDMs are one absent and one
empty volume id is enriched with the explicit empty sequence. -/
theorem c10_witness :
    ((show' grantedCtx falsyBdmsBackend demoServer).fst).volumes_attached
      = some [] :=
  c10_key_always_set grantedCtx falsyBdmsBackend demoServer rfl (by decide)

end ExtendedVolumes
